import Mathlib

/-!
Verification of the Le Vélo Marseille data-collection job
(src/fetch_levelo_data.py) against its specification.

The Python script is shallowly embedded below: JSON field values become
Option-typed structure fields (none = field absent), Python floats become
exact rationals, the two HTTP requests become explicit outcome parameters,
and the Supabase client becomes a list of issued write calls. Each
definition mirrors one function of the source file and keeps its name.
-/

namespace Levelo

/-- A station identifier as it appears in the JSON feeds: either a string
or an integer value. -/
inductive Ident where
  | str : String → Ident
  | int : Int → Ident
deriving DecidableEq, Repr

/-- One element of the station_status feed. A field of value none models
a key that is absent from the JSON object. -/
structure StationStatus where
  station_id : Ident
  num_bikes_available : Option Int
  num_docks_available : Option Int
  status : Option String
deriving DecidableEq, Repr

/-- One element of the station_information feed. The capacity field
distinguishes an absent key (none) from a key that is present with a
null value (some none). -/
structure StationInfo where
  station_id : Ident
  name : Option String
  address : Option String
  lat : Option ℚ
  lon : Option ℚ
  capacity : Option (Option Int)
deriving DecidableEq, Repr

/-- The merged record built by process_data for one station. The
last_update wall-clock timestamp of the script is omitted: it reads the
real-time clock and no claim concerns it. -/
structure StationRecord where
  station_id : Ident
  station_name : String
  address : String
  latitude : ℚ
  longitude : ℚ
  available_bikes : Int
  available_stands : Int
  total_capacity : Int
  status : String
  display_status : String
  availability_rate : ℚ
deriving DecidableEq, Repr

/-- ZONE_NORD_LIMIT = 43.30 from the configuration section. -/
def ZONE_NORD_LIMIT : ℚ := 43.30

/-- ZONE_CENTRE_LIMIT = 43.28 from the configuration section. -/
def ZONE_CENTRE_LIMIT : ℚ := 43.28

/-- THRESHOLD_CRITICAL = 15 from the configuration section. -/
def THRESHOLD_CRITICAL : ℚ := 15

/-- THRESHOLD_WARNING = 40 from the configuration section. -/
def THRESHOLD_WARNING : ℚ := 40

/-- THRESHOLD_EXCELLENT = 70 from the configuration section. -/
def THRESHOLD_EXCELLENT : ℚ := 70

/-- determine_zone from the source: latitude at least ZONE_NORD_LIMIT is
Nord, otherwise at least ZONE_CENTRE_LIMIT is Centre, otherwise Sud. -/
def determine_zone (latitude : ℚ) : String :=
  if latitude ≥ ZONE_NORD_LIMIT then "Nord Marseille"
  else if latitude ≥ ZONE_CENTRE_LIMIT then "Centre Marseille"
  else "Sud Marseille"

/-- calculate_status from the source: zero bikes or zero capacity is
critical, otherwise the unrounded availability rate is compared against
the three thresholds. -/
def calculate_status (bikes : Int) (capacity : Int) : String :=
  if bikes = 0 ∨ capacity = 0 then "critical"
  else
    let availability_rate : ℚ := (bikes : ℚ) / (capacity : ℚ) * 100
    if availability_rate < THRESHOLD_CRITICAL then "critical"
    else if availability_rate < THRESHOLD_WARNING then "warning"
    else if availability_rate > THRESHOLD_EXCELLENT then "excellent"
    else "good"

/-- Round a rational to the nearest integer, ties to even, as the Python
built-in round does on exact values. -/
def pyRound (q : ℚ) : Int :=
  let f : Int := Int.floor q
  let frac : ℚ := q - (f : ℚ)
  if frac < 1/2 then f
  else if 1/2 < frac then f + 1
  else if f % 2 = 0 then f else f + 1

/-- round(q, 1) from Python: round to one decimal place. -/
def round1 (q : ℚ) : ℚ := (pyRound (q * 10) : ℚ) / 10

/-- The info_dict built by process_data: a Python dict comprehension in
which a later entry with the same station_id overwrites an earlier one,
so looking up an id returns the last matching information record. -/
def lookupInfo (info_data : List StationInfo) (id : Ident) : Option StationInfo :=
  info_data.foldl (fun acc st => if st.station_id = id then some st else acc) none

/-- The expression info.get of capacity followed by the Python idiom
or-zero: an unmatched station or an absent key gives 0, a present null
gives 0, and a present 0 (falsy) also gives 0. -/
def capacityOf (info : Option StationInfo) : Int :=
  match info with
  | none => 0
  | some st =>
    match st.capacity with
    | none => 0
    | some none => 0
    | some (some v) => if v = 0 then 0 else v

/-- The body of the loop of process_data for one status record: look up
the information record, apply field defaults, compute the rounded
availability rate and the display status, and build the merged record. -/
def processRecord (info_data : List StationInfo) (s : StationStatus) : StationRecord :=
  let station_id := s.station_id
  let info := lookupInfo info_data station_id
  let bikes := s.num_bikes_available.getD 0
  let stands := s.num_docks_available.getD 0
  let capacity := capacityOf info
  let availability_rate : ℚ :=
    if capacity > 0 then round1 ((bikes : ℚ) / (capacity : ℚ) * 100) else 0
  let display_status := calculate_status bikes capacity
  { station_id := station_id
    station_name := (info.bind (fun st => st.name)).getD "Station inconnue"
    address := (info.bind (fun st => st.address)).getD "Adresse non disponible"
    latitude := (info.bind (fun st => st.lat)).getD 0
    longitude := (info.bind (fun st => st.lon)).getD 0
    available_bikes := bikes
    available_stands := stands
    total_capacity := capacity
    status := s.status.getD "unknown"
    display_status := display_status
    availability_rate := availability_rate }

/-- process_data from the source: one merged record is appended per
status record, in feed order. -/
def process_data (status_data : List StationStatus) (info_data : List StationInfo) :
    List StationRecord :=
  status_data.map (processRecord info_data)

/-- A row of the stations_metadata table as built by save_to_supabase.
The updated_at wall-clock timestamp is omitted. -/
structure MetadataRow where
  station_id : Ident
  station_name : String
  address : String
  latitude : ℚ
  longitude : ℚ
  total_capacity : Int
  zone : String
deriving DecidableEq, Repr

/-- A row of the levelo_observations table as built by save_to_supabase. -/
structure ObservationRow where
  station_id : Ident
  available_bikes : Int
  available_stands : Int
  status : String
deriving DecidableEq, Repr

/-- One request issued to the Supabase client. -/
inductive WriteCall where
  | upsertMetadata : List MetadataRow → WriteCall
  | insertObservations : List ObservationRow → WriteCall
deriving DecidableEq, Repr

/-- The metadata_batch entry built from one record, including the zone
derived from its latitude. -/
def metadataRowOf (record : StationRecord) : MetadataRow :=
  { station_id := record.station_id
    station_name := record.station_name
    address := record.address
    latitude := record.latitude
    longitude := record.longitude
    total_capacity := record.total_capacity
    zone := determine_zone record.latitude }

/-- The observations_batch entry built from one record. -/
def observationRowOf (record : StationRecord) : ObservationRow :=
  { station_id := record.station_id
    available_bikes := record.available_bikes
    available_stands := record.available_stands
    status := record.status }

/-- save_to_supabase from the source, viewed as the sequence of requests
it issues: one upsert carrying the whole metadata batch, then one insert
carrying the whole observations batch. -/
def save_to_supabase (data : List StationRecord) : List WriteCall :=
  let metadata_batch := data.map metadataRowOf
  let observations_batch := data.map observationRowOf
  [WriteCall.upsertMetadata metadata_batch, WriteCall.insertObservations observations_batch]

/-- The number of rows carried by one write call. -/
def callSize : WriteCall → Nat
  | WriteCall.upsertMetadata rows => rows.length
  | WriteCall.insertObservations rows => rows.length

/-- The outcome of one HTTP GET as the script observes it: either a
parsed station list, or an error (a non-success status raised by
raise_for_status, or a transport failure), both caught by the same
except clause. -/
inductive HttpResult (α : Type) where
  | ok : α → HttpResult α
  | err : HttpResult α
deriving DecidableEq, Repr

/-- fetch_api_data from the source: the status request runs first; any
RequestException from either request lands in the single except clause,
which returns the pair of Nones. -/
def fetch_api_data (status_resp : HttpResult (List StationStatus))
    (info_resp : HttpResult (List StationInfo)) :
    Option (List StationStatus) × Option (List StationInfo) :=
  match status_resp with
  | HttpResult.err => (none, none)
  | HttpResult.ok status_data =>
    match info_resp with
    | HttpResult.err => (none, none)
    | HttpResult.ok info_data => (some status_data, some info_data)

/-- main from the source, as the exit code of the run. The two feed
outcomes and the Supabase and JSON-export outcomes are parameters; the
checks mirror the four if statements of main: a falsy (absent or empty)
feed exits 1, an empty processed list exits 1, a failed save exits 1,
and a failed export only prints a warning before the summary. -/
def main_run (status_resp : HttpResult (List StationStatus))
    (info_resp : HttpResult (List StationInfo))
    (supabase_ok : Bool) (export_ok : Bool) : Nat :=
  match fetch_api_data status_resp info_resp with
  | (some status_data, some info_data) =>
    if status_data.isEmpty ∨ info_data.isEmpty then 1
    else
      let processed := process_data status_data info_data
      if processed.isEmpty then 1
      else if supabase_ok then
        match export_ok with
        | true => 0
        | false => 0
      else 1
  | (_, _) => 1

/-- The classification rule of claim C1 written exactly as the claim
states it, as a function of bikes, docks and the availability rate,
with the docks clause the claim asserts. To be compared with
calculate_status from the source, which tests capacity, not docks. -/
def claimedStatus (bikes docks : Int) (rate : ℚ) : String :=
  if bikes = 0 then "critical"
  else if docks = 0 then "critical"
  else if rate < 15 then "critical"
  else if rate < 40 then "warning"
  else if rate > 70 then "excellent"
  else "good"

/-- The classification rule set of the amended claim C1: bikes zero or
capacity zero force critical, then the exact (unrounded) rate
bikes / capacity * 100 is compared against 15, 40 and 70. -/
def specStatus (bikes capacity : Int) : String :=
  if bikes = 0 then "critical"
  else if capacity = 0 then "critical"
  else if (bikes : ℚ) / (capacity : ℚ) * 100 < 15 then "critical"
  else if (bikes : ℚ) / (capacity : ℚ) * 100 < 40 then "warning"
  else if (bikes : ℚ) / (capacity : ℚ) * 100 > 70 then "excellent"
  else "good"

/-- Concrete status record used for claim C1: five bikes, zero docks. -/
def sA : StationStatus :=
  { station_id := Ident.str "A"
    num_bikes_available := some 5
    num_docks_available := some 0
    status := some "active" }

/-- Concrete information record used for claim C1: capacity ten. -/
def iA : StationInfo :=
  { station_id := Ident.str "A"
    name := some "Station A"
    address := some "Rue A"
    lat := some 43
    lon := some 5
    capacity := some (some 10) }

/-- Concrete status record used for claim C2, with no matching
information record. -/
def sB : StationStatus :=
  { station_id := Ident.str "X"
    num_bikes_available := some 2
    num_docks_available := some 3
    status := some "active" }

/-- Concrete status record used for claim C3. -/
def sC : StationStatus :=
  { station_id := Ident.int 7
    num_bikes_available := some 3
    num_docks_available := some 7
    status := some "active" }

/-- Concrete information record used for claim C3. -/
def iC : StationInfo :=
  { station_id := Ident.int 7
    name := some "Cours Julien"
    address := some "Cours Julien"
    lat := some 43.29
    lon := some 5.38
    capacity := some (some 10) }

/-- Concrete merged record used for claim C4. -/
def recD : StationRecord :=
  { station_id := Ident.int 1
    station_name := "S"
    address := "A"
    latitude := 43
    longitude := 5
    available_bikes := 3
    available_stands := 7
    total_capacity := 10
    status := "active"
    display_status := "warning"
    availability_rate := 30 }

/-- Concrete status record used for claim C5: the identifier is the
numeric string 42. -/
def sE : StationStatus :=
  { station_id := Ident.str "42"
    num_bikes_available := some 1
    num_docks_available := some 1
    status := some "active" }

/-- Concrete status record used for claim C7. -/
def sG : StationStatus :=
  { station_id := Ident.int 9
    num_bikes_available := some 4
    num_docks_available := some 6
    status := some "active" }

/-- Concrete information record used for claim C7. -/
def iG : StationInfo :=
  { station_id := Ident.int 9
    name := some "G"
    address := some "G"
    lat := some 43.29
    lon := some 5.38
    capacity := some (some 10) }

/-- Concrete status record used for claim C9: bikes and docks keys
absent. -/
def sH : StationStatus :=
  { station_id := Ident.str "H"
    num_bikes_available := none
    num_docks_available := none
    status := none }

/-- Concrete information record used for claim C9: capacity present but
null. -/
def iH : StationInfo :=
  { station_id := Ident.str "H"
    name := some "H"
    address := none
    lat := some 43.31
    lon := some 5.4
    capacity := some none }

/-- Concrete status record used for claim C10. -/
def sJ : StationStatus :=
  { station_id := Ident.int 3
    num_bikes_available := some 0
    num_docks_available := some 5
    status := some "active" }

theorem processRecord_station_id (info_data : List StationInfo) (s : StationStatus) :
    (processRecord info_data s).station_id = s.station_id := rfl

theorem processRecord_available_bikes (info_data : List StationInfo) (s : StationStatus) :
    (processRecord info_data s).available_bikes = s.num_bikes_available.getD 0 := rfl

theorem processRecord_available_stands (info_data : List StationInfo) (s : StationStatus) :
    (processRecord info_data s).available_stands = s.num_docks_available.getD 0 := rfl

theorem processRecord_total_capacity (info_data : List StationInfo) (s : StationStatus) :
    (processRecord info_data s).total_capacity = capacityOf (lookupInfo info_data s.station_id) := rfl

theorem processRecord_display_status (info_data : List StationInfo) (s : StationStatus) :
    (processRecord info_data s).display_status =
      calculate_status (s.num_bikes_available.getD 0)
        (capacityOf (lookupInfo info_data s.station_id)) := rfl

theorem processRecord_availability_rate (info_data : List StationInfo) (s : StationStatus) :
    (processRecord info_data s).availability_rate =
      if capacityOf (lookupInfo info_data s.station_id) > 0 then
        round1 ((s.num_bikes_available.getD 0 : ℚ) /
          (capacityOf (lookupInfo info_data s.station_id) : ℚ) * 100)
      else 0 := rfl

theorem processRecord_station_name (info_data : List StationInfo) (s : StationStatus) :
    (processRecord info_data s).station_name =
      ((lookupInfo info_data s.station_id).bind (fun st => st.name)).getD "Station inconnue" := rfl

theorem calc_eq_spec (b c : Int) : calculate_status b c = specStatus b c := by
  unfold calculate_status specStatus
  by_cases hb : b = 0
  · simp [hb]
  · by_cases hc : c = 0
    · simp [hb, hc]
    · simp [hb, hc, THRESHOLD_CRITICAL, THRESHOLD_WARNING, THRESHOLD_EXCELLENT]

theorem status_mem_labels (b c : Int) :
    calculate_status b c = "critical" ∨ calculate_status b c = "warning" ∨
      calculate_status b c = "good" ∨ calculate_status b c = "excellent" := by
  rw [calc_eq_spec]
  unfold specStatus
  split_ifs <;> simp

/-- C1, counterexample: the claim classifies by a docks-equals-zero rule,
but calculate_status tests capacity, not docks. For the station with
five bikes, zero free docks and capacity ten, the code yields good
(rate 50) while the claimed rule set yields critical. -/
theorem C1_counterexample :
    (processRecord [iA] sA).available_stands = 0 ∧
    (processRecord [iA] sA).display_status = "good" ∧
    claimedStatus (processRecord [iA] sA).available_bikes
        (processRecord [iA] sA).available_stands
        (processRecord [iA] sA).availability_rate = "critical" ∧
    (processRecord [iA] sA).display_status ≠
      claimedStatus (processRecord [iA] sA).available_bikes
        (processRecord [iA] sA).available_stands
        (processRecord [iA] sA).availability_rate := by
  norm_num [sA, iA, processRecord, calculate_status, claimedStatus, lookupInfo, capacityOf,
    round1, pyRound, THRESHOLD_CRITICAL, THRESHOLD_WARNING, THRESHOLD_EXCELLENT]
  decide

/-- C1, amended: for every processed station record, the display
classification follows the priority rules bikes == 0 critical,
capacity == 0 critical, then by the exact rate bikes / capacity * 100:
below 15 critical, below 40 warning, above 70 excellent, otherwise
good. -/
theorem C1_display_status_rule (status_data : List StationStatus) (info_data : List StationInfo)
    (r : StationRecord) (hr : r ∈ process_data status_data info_data) :
    r.display_status = specStatus r.available_bikes r.total_capacity := by
  simp only [process_data, List.mem_map] at hr
  rcases hr with ⟨s, _, rfl⟩
  rw [processRecord_display_status, processRecord_available_bikes, processRecord_total_capacity]
  exact calc_eq_spec _ _

/-- C1, witness: the amended rule evaluated on the concrete one-station
feed. -/
theorem C1_witness :
    (processRecord [iA] sA).display_status =
      specStatus (processRecord [iA] sA).available_bikes (processRecord [iA] sA).total_capacity :=
  C1_display_status_rule [sA] [iA] (processRecord [iA] sA) (by simp [process_data])

/-- C2, counterexample: a status record whose identifier matches no
information record is not excluded: with an empty information feed the
output still has one record, so the processed count is not the matched
count. -/
theorem C2_counterexample :
    lookupInfo ([] : List StationInfo) sB.station_id = none ∧
    (process_data [sB] []).length ≠ 0 := by
  simp [lookupInfo, process_data]

/-- C2, amended: a status record with no matching information record is
still included in the merge output, with the default name and zero
capacity, and the processed count equals the total number of status
records. -/
theorem C2_unmatched_included (status_data : List StationStatus) (info_data : List StationInfo)
    (s : StationStatus) (hs : s ∈ status_data)
    (hmiss : lookupInfo info_data s.station_id = none) :
    (process_data status_data info_data).length = status_data.length ∧
    processRecord info_data s ∈ process_data status_data info_data ∧
    (processRecord info_data s).station_name = "Station inconnue" ∧
    (processRecord info_data s).total_capacity = 0 := by
  refine ⟨by simp [process_data], ?_, ?_, ?_⟩
  · simpa [process_data] using List.mem_map_of_mem (processRecord info_data) hs
  · rw [processRecord_station_name, hmiss]
    rfl
  · rw [processRecord_total_capacity, hmiss]
    rfl

/-- C2, witness: the amended statement on the concrete unmatched
station. -/
theorem C2_witness :
    (process_data [sB] ([] : List StationInfo)).length = [sB].length ∧
    processRecord [] sB ∈ process_data [sB] [] ∧
    (processRecord [] sB).station_name = "Station inconnue" ∧
    (processRecord [] sB).total_capacity = 0 :=
  C2_unmatched_included [sB] [] sB (by simp) (by simp [lookupInfo])

/-- C3: every processed record's availability_rate equals
round(bikes / capacity * 100, 1) when its total capacity is positive and
0 otherwise. -/
theorem C3_availability_rate (status_data : List StationStatus) (info_data : List StationInfo)
    (r : StationRecord) (hr : r ∈ process_data status_data info_data) :
    r.availability_rate =
      if 0 < r.total_capacity then
        round1 ((r.available_bikes : ℚ) / (r.total_capacity : ℚ) * 100)
      else 0 := by
  simp only [process_data, List.mem_map] at hr
  rcases hr with ⟨s, _, rfl⟩
  rfl

/-- C3, witness: the rate rule evaluated on the concrete one-station
feed with capacity ten. -/
theorem C3_witness :
    (processRecord [iC] sC).availability_rate =
      if 0 < (processRecord [iC] sC).total_capacity then
        round1 (((processRecord [iC] sC).available_bikes : ℚ) /
          ((processRecord [iC] sC).total_capacity : ℚ) * 100)
      else 0 :=
  C3_availability_rate [sC] [iC] (processRecord [iC] sC) (by simp [process_data])

/-- C4, counterexample: persisting 101 records issues 2 write calls, not
ceil(101 / 50) = 3: save_to_supabase sends the whole metadata batch in
one upsert and the whole observations batch in one insert, with no
batching by fifty. -/
theorem C4_counterexample :
    (save_to_supabase (List.replicate 101 recD)).length = 2 ∧
    (save_to_supabase (List.replicate 101 recD)).length ≠ (101 + 50 - 1) / 50 := by
  refine ⟨rfl, ?_⟩
  norm_num [save_to_supabase]

/-- C4, amended: persisting a list of N finalized records issues exactly
two write calls, one stations_metadata upsert and one
levelo_observations insert, each carrying all N records in a single
batch. -/
theorem C4_write_calls (data : List StationRecord) :
    (save_to_supabase data).map callSize = [data.length, data.length] := by
  simp [save_to_supabase, callSize]

/-- C5, counterexample: a status record with the numeric-string
identifier 42 keeps the string identifier in the output record; it is
not converted to the integer 42. -/
theorem C5_counterexample :
    (process_data [sE] []).map (fun r => r.station_id) = [Ident.str "42"] ∧
    Ident.str "42" ≠ Ident.int 42 := by
  constructor
  · simp [process_data, processRecord_station_id, sE]
  · simp

/-- C5, amended: the station identifier is copied into the output record
unchanged, so a numeric string stays that same string, and the mapping
is deterministic because it is the identity on identifiers. -/
theorem C5_identifier_passthrough (status_data : List StationStatus)
    (info_data : List StationInfo) :
    (process_data status_data info_data).map (fun r => r.station_id) =
      status_data.map (fun s => s.station_id) := by
  simp only [process_data, List.map_map]
  rfl

/-- C6: if either HTTP request fails, fetch_api_data returns the pair of
absent results, and in every case the two components are present or
absent together, so no partial result is ever returned. -/
theorem C6_no_partial_fetch (status_resp : HttpResult (List StationStatus))
    (info_resp : HttpResult (List StationInfo)) :
    ((status_resp = HttpResult.err ∨ info_resp = HttpResult.err) →
      fetch_api_data status_resp info_resp = (none, none)) ∧
    ((fetch_api_data status_resp info_resp).1.isSome ↔
      (fetch_api_data status_resp info_resp).2.isSome) := by
  cases status_resp <;> cases info_resp <;> simp [fetch_api_data]

/-- C6, witness: a successful status request paired with a failed
information request yields the pair of Nones. -/
theorem C6_witness :
    fetch_api_data (HttpResult.ok ([] : List StationStatus))
      (HttpResult.err : HttpResult (List StationInfo)) = (none, none) :=
  (C6_no_partial_fetch _ _).1 (Or.inr rfl)

/-- C7: a hard failure of fetch, of processing (an empty feed), or of the
Supabase save exits with code 1; a JSON-export failure never changes the
exit code, and a run whose fetch succeeded with nonempty feeds and whose
save succeeded exits 0 even when the export fails. -/
theorem C7_failure_policy (status_resp : HttpResult (List StationStatus))
    (info_resp : HttpResult (List StationInfo)) (supabase_ok export_ok : Bool) :
    ((status_resp = HttpResult.err ∨ info_resp = HttpResult.err) →
      main_run status_resp info_resp supabase_ok export_ok = 1) ∧
    (∀ sd, status_resp = HttpResult.ok sd → sd.isEmpty = true →
      main_run status_resp info_resp supabase_ok export_ok = 1) ∧
    (supabase_ok = false → main_run status_resp info_resp supabase_ok export_ok = 1) ∧
    main_run status_resp info_resp supabase_ok true =
      main_run status_resp info_resp supabase_ok false ∧
    (∀ sd ind, status_resp = HttpResult.ok sd → info_resp = HttpResult.ok ind →
      sd.isEmpty = false → ind.isEmpty = false → supabase_ok = true →
      main_run status_resp info_resp supabase_ok export_ok = 0) := by
  cases status_resp <;> cases info_resp <;> cases supabase_ok <;> cases export_ok <;>
    simp [main_run, fetch_api_data, process_data, List.isEmpty_iff] <;>
    constructor <;> intros <;> simp_all

/-- C7, witness: a run with nonempty feeds, a successful save and a
failed export exits 0. -/
theorem C7_witness :
    main_run (HttpResult.ok [sG]) (HttpResult.ok [iG]) true false = 0 :=
  ((C7_failure_policy (HttpResult.ok [sG]) (HttpResult.ok [iG]) true false).2.2.2.2)
    [sG] [iG] rfl rfl rfl rfl rfl

/-- C8: latitude at least 43.30 gives Nord Marseille, latitude in
[43.28, 43.30) gives Centre Marseille, and latitude below 43.28 gives
Sud Marseille, the boundary values landing in the
greater-than-or-equal branch. -/
theorem C8_zone_bands (lat : ℚ) :
    ((43.30 : ℚ) ≤ lat → determine_zone lat = "Nord Marseille") ∧
    ((43.28 : ℚ) ≤ lat → lat < (43.30 : ℚ) → determine_zone lat = "Centre Marseille") ∧
    (lat < (43.28 : ℚ) → determine_zone lat = "Sud Marseille") := by
  refine ⟨fun h => ?_, fun h1 h2 => ?_, fun h => ?_⟩ <;>
    unfold determine_zone ZONE_NORD_LIMIT ZONE_CENTRE_LIMIT <;>
    split_ifs <;> first | rfl | linarith

/-- C8, witness: the three bands at 43.30, 43.29, 43.28 and 43.10, the
two boundary latitudes landing in their greater-than-or-equal
branches. -/
theorem C8_witness :
    determine_zone (43.30 : ℚ) = "Nord Marseille" ∧
    determine_zone (43.29 : ℚ) = "Centre Marseille" ∧
    determine_zone (43.28 : ℚ) = "Centre Marseille" ∧
    determine_zone (43.10 : ℚ) = "Sud Marseille" :=
  ⟨(C8_zone_bands 43.30).1 (by norm_num),
   (C8_zone_bands 43.29).2.1 (by norm_num) (by norm_num),
   (C8_zone_bands 43.28).2.1 (by norm_num) (by norm_num),
   (C8_zone_bands 43.10).2.2 (by norm_num)⟩

/-- C9: an absent bikes or docks key defaults to 0; an information
record whose capacity key is absent, null or zero yields total capacity
0 and availability rate 0, exactly as an unmatched station does, so the
guarded division is never taken on zero capacity and processing is
total. -/
theorem C9_defaults (info_data : List StationInfo) (s : StationStatus) :
    (s.num_bikes_available = none → (processRecord info_data s).available_bikes = 0) ∧
    (s.num_docks_available = none → (processRecord info_data s).available_stands = 0) ∧
    (∀ st, lookupInfo info_data s.station_id = some st →
      (st.capacity = none ∨ st.capacity = some none ∨ st.capacity = some (some 0)) →
      (processRecord info_data s).total_capacity = 0 ∧
      (processRecord info_data s).availability_rate = 0) ∧
    (lookupInfo info_data s.station_id = none →
      (processRecord info_data s).total_capacity = 0 ∧
      (processRecord info_data s).availability_rate = 0) := by
  refine ⟨fun h => ?_, fun h => ?_, fun st hst hcap => ?_, fun h => ?_⟩
  · rw [processRecord_available_bikes, h]
    rfl
  · rw [processRecord_available_stands, h]
    rfl
  · have hc : capacityOf (lookupInfo info_data s.station_id) = 0 := by
      rw [hst]
      rcases hcap with h1 | h1 | h1 <;> simp [capacityOf, h1]
    constructor
    · rw [processRecord_total_capacity, hc]
    · rw [processRecord_availability_rate, hc]
      simp
  · have hc : capacityOf (lookupInfo info_data s.station_id) = 0 := by
      rw [h]
      rfl
    constructor
    · rw [processRecord_total_capacity, hc]
    · rw [processRecord_availability_rate, hc]
      simp

/-- C9, witness: the station with absent bikes and docks keys and a
present-but-null capacity is processed with all defaults and rate 0. -/
theorem C9_witness :
    (processRecord [iH] sH).available_bikes = 0 ∧
    (processRecord [iH] sH).available_stands = 0 ∧
    (processRecord [iH] sH).total_capacity = 0 ∧
    (processRecord [iH] sH).availability_rate = 0 :=
  ⟨(C9_defaults [iH] sH).1 rfl,
   (C9_defaults [iH] sH).2.1 rfl,
   ((C9_defaults [iH] sH).2.2.1 iH (by simp [lookupInfo, iH, sH]) (Or.inr (Or.inl rfl))).1,
   ((C9_defaults [iH] sH).2.2.1 iH (by simp [lookupInfo, iH, sH]) (Or.inr (Or.inl rfl))).2⟩

/-- C10: the merge produces exactly one output record per status record
in feed order, so the output length equals the status count whatever the
information feed contains, and every record's display classification is
one of critical, warning, good, excellent. -/
theorem C10_shape (status_data : List StationStatus) (info_data : List StationInfo) :
    (process_data status_data info_data).length = status_data.length ∧
    (process_data status_data info_data).map (fun r => r.station_id) =
      status_data.map (fun s => s.station_id) ∧
    ∀ r ∈ process_data status_data info_data,
      r.display_status = "critical" ∨ r.display_status = "warning" ∨
        r.display_status = "good" ∨ r.display_status = "excellent" := by
  refine ⟨by simp [process_data], ?_, ?_⟩
  · simp only [process_data, List.map_map]
    rfl
  · intro r hr
    simp only [process_data, List.mem_map] at hr
    rcases hr with ⟨s, _, rfl⟩
    rw [processRecord_display_status]
    exact status_mem_labels _ _

/-- C10, witness: the record of the zero-bike station against an empty
information feed carries one of the four labels. -/
theorem C10_witness :
    (processRecord ([] : List StationInfo) sJ).display_status = "critical" ∨
    (processRecord [] sJ).display_status = "warning" ∨
    (processRecord [] sJ).display_status = "good" ∨
    (processRecord [] sJ).display_status = "excellent" :=
  (C10_shape [sJ] []).2.2 (processRecord [] sJ) (by simp [process_data])

end Levelo
